import Mathlib

/-!
Verification of the Sager Weathercaster forecast engine
(`custom_components/sager_weathercaster`).  Real-valued sensor arithmetic is
embedded over `ℚ`; Python's float-specific transcendental operations
(`math.sin`, `math.log`, `**`, `round`) are abstracted as oracle parameters,
since the properties proved here do not depend on their values.
-/

namespace SagerWeathercaster

/-- Python truncating conversion `int(x)`: rounds toward zero. -/
def pyint (x : ℚ) : ℤ := if 0 ≤ x then ⌊x⌋ else ⌈x⌉

/-- Python `%` on reals with the divisor's sign (here only used with
positive divisors, where it coincides with the floor convention). -/
def pymod (a b : ℚ) : ℚ := a - b * ⌊a / b⌋

/-! ## Constants from `const.py` -/

def TEMP_THRESHOLD_FLURRIES : ℚ := 2.0

/-- `HPA_LEVELS`: rows `(max, min, level)`; `none` stands for `±inf`. -/
def HPA_LEVELS : List (Option ℚ × Option ℚ × ℕ) :=
  [(none, some 1029.46, 1),
   (some 1029.46, some 1019.30, 2),
   (some 1019.30, some 1012.53, 3),
   (some 1012.53, some 1005.76, 4),
   (some 1005.76, some 999.00, 5),
   (some 999.00, some 988.80, 6),
   (some 988.80, some 975.28, 7),
   (some 975.28, none, 8)]

def FORECAST_CODES : List String :=
  ["a", "b", "c", "d", "e", "f", "g", "h", "j", "k", "l",
   "m", "n", "p", "r", "s", "t", "u", "w", "x", "y"]

def SHOWER_FORECAST_CODES : List String :=
  ["g", "j", "k", "l", "r", "s", "t", "u", "w"]

def WIND_VELOCITY_KEYS : List String :=
  ["probably_increasing", "moderate_to_fresh", "fresh_to_strong", "gale",
   "storm_to_hurricane", "hurricane", "decreasing_or_moderate",
   "no_significant_change"]

def WIND_DIRECTION_KEYS : List String :=
  ["n_or_ne", "ne_or_e", "e_or_se", "se_or_s", "s_or_sw", "sw_or_w",
   "w_or_nw", "nw_or_n"]

def WIND_CARDINAL_CALM : String := "calm"

def ZONE_DIRECTIONS_NT : List String := ["N", "NE", "E", "SE", "S", "SW", "W", "NW"]
def ZONE_DIRECTIONS_NP : List String := ["S", "SW", "W", "NW", "N", "NE", "E", "SE"]
def ZONE_DIRECTIONS_ST : List String := ["S", "SE", "E", "NE", "N", "NW", "W", "SW"]
def ZONE_DIRECTIONS_SP : List String := ["N", "NW", "W", "SW", "S", "SE", "E", "NE"]

def ZAMBRETTI_FALLING_CONSTANT : ℚ := 127
def ZAMBRETTI_FALLING_FACTOR : ℚ := 0.12
def ZAMBRETTI_STEADY_CONSTANT : ℚ := 144
def ZAMBRETTI_STEADY_FACTOR : ℚ := 0.13
def ZAMBRETTI_RISING_CONSTANT : ℚ := 185
def ZAMBRETTI_RISING_FACTOR : ℚ := 0.16
def ZAMBRETTI_TREND_THRESHOLD : ℚ := 1.6

/-- `ZAMBRETTI_FORECASTS`: per-trend sub-tables keyed by the forecast index. -/
def ZAMBRETTI_FORECASTS : List (String × List (ℤ × String × String)) :=
  [("falling",
    [(1, "settled_fine", "sunny"),
     (2, "fine_weather", "sunny"),
     (3, "fine_less_settled", "partlycloudy"),
     (4, "fairly_fine_showery_later", "partlycloudy"),
     (5, "showery_more_unsettled", "rainy"),
     (6, "unsettled_rain_later", "rainy"),
     (7, "rain_at_times_worse_later", "rainy"),
     (8, "rain_very_unsettled", "rainy"),
     (9, "very_unsettled_rain", "pouring")]),
   ("steady",
    [(10, "settled_fine", "sunny"),
     (11, "fine_weather", "sunny"),
     (12, "fine_possibly_showers", "partlycloudy"),
     (13, "fairly_fine_showers_likely", "partlycloudy"),
     (14, "showery_bright_intervals", "rainy"),
     (15, "changeable_some_rain", "rainy"),
     (16, "unsettled_rain_at_times", "rainy"),
     (17, "rain_frequent_intervals", "rainy"),
     (18, "very_unsettled_rain", "pouring"),
     (19, "stormy_much_rain", "pouring")]),
   ("rising",
    [(20, "settled_fine", "sunny"),
     (21, "fine_weather", "sunny"),
     (22, "becoming_fine", "sunny"),
     (23, "fairly_fine_improving", "partlycloudy"),
     (24, "fairly_fine_showers_early", "partlycloudy"),
     (25, "showery_early_improving", "rainy"),
     (26, "changeable_mending", "partlycloudy"),
     (27, "rather_unsettled_clearing", "partlycloudy"),
     (28, "unsettled_probably_improving", "rainy"),
     (29, "unsettled_short_fine", "rainy"),
     (30, "very_unsettled_finer_at_times", "rainy"),
     (31, "stormy_possibly_improving", "pouring"),
     (32, "stormy_much_rain", "pouring")])]

/-- `FORECAST_CONDITIONS`: forecast code to HA weather condition. -/
def FORECAST_CONDITIONS : List (String × String) :=
  [("a", "sunny"), ("b", "sunny"), ("c", "sunny"),
   ("d", "partlycloudy"), ("e", "partlycloudy"), ("f", "partlycloudy"),
   ("g", "cloudy"), ("g1", "cloudy"), ("g2", "snowy"), ("h", "cloudy"),
   ("j", "rainy"), ("j1", "rainy"), ("j2", "snowy"),
   ("k", "rainy"), ("k1", "rainy"), ("k2", "snowy"),
   ("l", "rainy"), ("l1", "rainy"), ("l2", "snowy"),
   ("m", "rainy"), ("n", "rainy"), ("p", "rainy"),
   ("r", "rainy"), ("r1", "rainy"), ("r2", "snowy"),
   ("s", "rainy"), ("s1", "rainy"), ("s2", "snowy"),
   ("t", "rainy"), ("t1", "rainy"), ("t2", "snowy"),
   ("u", "rainy"), ("u1", "rainy"), ("u2", "snowy"),
   ("w", "rainy"), ("w1", "rainy"), ("w2", "snowy"),
   ("x", "partlycloudy"), ("y", "partlycloudy")]

def LUX_CLEAR_SKY_COEFFICIENT : ℚ := 172278
def LUX_ATMOSPHERIC_A : ℚ := 0.271
def LUX_ATMOSPHERIC_B : ℚ := 0.706

/-! ## Derived-signal calculators from `coordinator.py` -/

/-- One row of `HPA_LEVELS` claims `hpa` when `min_hpa <= hpa < max_hpa`. -/
def hpaRowMatches (hpa : ℚ) (row : Option ℚ × Option ℚ × ℕ) : Bool :=
  (match row.2.1 with
   | none => true
   | some lo => decide (lo ≤ hpa)) &&
  (match row.1 with
   | none => true
   | some hi => decide (hpa < hi))

/-- `_get_hpa_level`: first matching band's level, else 8. -/
def get_hpa_level (hpa : ℚ) : ℕ :=
  match HPA_LEVELS.find? (fun row => hpaRowMatches hpa row) with
  | some row => row.2.2
  | none => 8

/-- `_get_wind_dir`: 8-point cardinal direction, or `calm` at speed <= 1. -/
def get_wind_dir (direction speed : ℚ) : String :=
  if speed ≤ 1 then WIND_CARDINAL_CALM
  else
    let dirs : List String := ["N", "NE", "E", "SE", "S", "SW", "W", "NW"]
    dirs.getD ((pyint ((direction + 22.5) / 45)) % 8).toNat "N"

/-- `_get_wind_trend`: 1 STEADY, 2 VEERING, 3 BACKING, hemisphere-aware. -/
def get_wind_trend (isSouthern : Bool) (current historic : ℚ) : ℕ :=
  if historic = 0 ∨ current = 0 then 1
  else
    let diff := pymod (current - historic + 180) 360 - 180
    if |diff| ≤ 45 then 1
    else if isSouthern then (if 0 < diff then 3 else 2)
    else (if 0 < diff then 2 else 3)

/-- `_get_pressure_trend`: 5-level classification of pressure change. -/
def get_pressure_trend (change : ℚ) : ℕ :=
  if 1.4 < change then 1
  else if 0.68 < change then 2
  else if -0.68 < change then 3
  else if -1.4 < change then 4
  else 5

/-- `_get_cloud_level`: rain overrides, else thresholds at 80/50/20. -/
def get_cloud_level (cover : ℚ) (raining : Bool) : ℕ :=
  if raining then 5
  else if 80 < cover then 4
  else if 50 < cover then 3
  else if 20 < cover then 2
  else 1

/-! ## Zambretti forecast engine (`_zambretti_forecast`) -/

structure ZambrettiResult where
  zambretti_key : String
  condition : String
  trend : String
  index : ℤ
deriving DecidableEq

/-- `ZAMBRETTI_FORECASTS.get(trend, {})`. -/
def zambrettiTable (trend : String) : List (ℤ × String × String) :=
  (ZAMBRETTI_FORECASTS.lookup trend).getD []

/-- Python `max(ZAMBRETTI_FORECASTS[trend])`: the largest key of the
trend's sub-table. -/
def zambrettiMaxKey (trend : String) : ℤ :=
  ((zambrettiTable trend).map Prod.fst).foldl max 0

/-- `_zambretti_forecast`: trend classification, linear index formula,
wind-direction adjustment, sub-table lookup. -/
def zambretti_forecast (pressure pressure_change wind_dir : ℚ) : ZambrettiResult :=
  let change_3h := pressure_change / 2
  let tp : String × ℤ :=
    if change_3h < -ZAMBRETTI_TREND_THRESHOLD then
      ("falling",
        max 1 (min 9 ⌊ZAMBRETTI_FALLING_CONSTANT - ZAMBRETTI_FALLING_FACTOR * pressure⌋))
    else if ZAMBRETTI_TREND_THRESHOLD < change_3h then
      ("rising",
        max 20 (min 32 ⌊ZAMBRETTI_RISING_CONSTANT - ZAMBRETTI_RISING_FACTOR * pressure⌋))
    else
      ("steady",
        max 10 (min 19 ⌊ZAMBRETTI_STEADY_CONSTANT - ZAMBRETTI_STEADY_FACTOR * pressure⌋))
  let trend := tp.1
  let idx0 := tp.2
  let idx :=
    if 135 ≤ wind_dir ∧ wind_dir ≤ 225 then min (idx0 + 2) (zambrettiMaxKey trend)
    else if (45 ≤ wind_dir ∧ wind_dir < 135) ∨ (225 < wind_dir ∧ wind_dir ≤ 315) then
      min (idx0 + 1) (zambrettiMaxKey trend)
    else idx0
  match (zambrettiTable trend).lookup idx with
  | some kc => ⟨kc.1, kc.2, trend, idx⟩
  | none => ⟨"unknown", "partlycloudy", trend, idx⟩

/-! ## Sager forecast engine (`_sager_algorithm`) -/

/-- `_get_complete_forecast_map`: the static Sager lookup table,
keys `trend ++ hpa_level ++ pressure_trend ++ cloud_level`, values
`(forecast_code, wind_code)`. -/
def SAGER_FORECAST_MAP : List (String × String × String) :=
  [("1311", "F0", "W7"), ("1312", "F0", "W7"), ("1313", "F0", "W7"), ("1314", "F0", "W7"),
   ("1315", "F18", "W7"), ("1321", "F0", "W7"), ("1322", "F0", "W7"), ("1323", "F0", "W7"),
   ("1324", "F19", "W7"), ("1325", "F14", "W7"), ("1331", "F0", "W7"), ("1332", "F0", "W7"),
   ("1333", "F0", "W7"), ("1334", "F19", "W7"), ("1335", "F14", "W7"), ("1341", "F0", "W7"),
   ("1342", "F19", "W7"), ("1343", "F19", "W7"), ("1344", "F3", "W7"), ("1345", "F14", "W7"),
   ("1351", "F8", "W0"), ("1352", "F8", "W0"), ("1353", "F8", "W0"), ("1354", "F11", "W0"),
   ("1355", "F11", "W0"), ("1361", "F11", "W2"), ("1362", "F11", "W2"), ("1363", "F11", "W2"),
   ("1364", "F11", "W2"), ("1365", "F11", "W2"), ("1371", "F11", "W3"), ("1372", "F11", "W3"),
   ("1373", "F11", "W3"), ("1374", "F11", "W3"), ("1375", "F11", "W3"), ("1381", "F11", "W4"),
   ("1382", "F11", "W4"), ("1383", "F11", "W4"), ("1384", "F11", "W4"), ("1385", "F11", "W4"),
   ("2311", "F0", "W7"), ("2312", "F0", "W7"), ("2313", "F0", "W7"), ("2314", "F19", "W7"),
   ("2315", "F14", "W7"), ("2321", "F0", "W7"), ("2322", "F0", "W7"), ("2323", "F0", "W7"),
   ("2324", "F19", "W7"), ("2325", "F14", "W7"), ("2331", "F0", "W7"), ("2332", "F0", "W7"),
   ("2333", "F0", "W7"), ("2334", "F19", "W7"), ("2335", "F14", "W7"), ("2341", "F0", "W7"),
   ("2342", "F19", "W7"), ("2343", "F19", "W7"), ("2344", "F3", "W7"), ("2345", "F14", "W7"),
   ("2351", "F8", "W0"), ("2352", "F11", "W0"), ("2353", "F11", "W0"), ("2354", "F11", "W0"),
   ("2355", "F11", "W0"), ("2361", "F11", "W2"), ("2362", "F11", "W2"), ("2363", "F11", "W2"),
   ("2364", "F11", "W2"), ("2365", "F11", "W2"), ("2371", "F11", "W3"), ("2372", "F11", "W3"),
   ("2373", "F11", "W3"), ("2374", "F11", "W3"), ("2375", "F11", "W3"), ("2381", "F11", "W4"),
   ("2382", "F11", "W4"), ("2383", "F11", "W4"), ("2384", "F11", "W4"), ("2385", "F11", "W4"),
   ("3311", "F0", "W7"), ("3312", "F0", "W7"), ("3313", "F0", "W7"), ("3314", "F19", "W7"),
   ("3315", "F14", "W7"), ("3321", "F0", "W7"), ("3322", "F0", "W7"), ("3323", "F0", "W7"),
   ("3324", "F19", "W7"), ("3325", "F14", "W7"), ("3331", "F0", "W7"), ("3332", "F0", "W7"),
   ("3333", "F0", "W7"), ("3334", "F19", "W7"), ("3335", "F14", "W7"), ("3341", "F0", "W7"),
   ("3342", "F0", "W7"), ("3343", "F19", "W7"), ("3344", "F3", "W7"), ("3345", "F14", "W7"),
   ("3351", "F8", "W0"), ("3352", "F8", "W0"), ("3353", "F8", "W0"), ("3354", "F11", "W0"),
   ("3355", "F11", "W0"), ("3361", "F11", "W2"), ("3362", "F11", "W2"), ("3363", "F11", "W2"),
   ("3364", "F11", "W2"), ("3365", "F11", "W2"), ("3371", "F11", "W3"), ("3372", "F11", "W3"),
   ("3373", "F11", "W3"), ("3374", "F11", "W3"), ("3375", "F11", "W3"), ("3381", "F11", "W4"),
   ("3382", "F11", "W4"), ("3383", "F11", "W4"), ("3384", "F11", "W4"), ("3385", "F11", "W4"),
   ("1211", "F0", "W7"), ("1212", "F0", "W7"), ("1213", "F0", "W7"), ("1214", "F0", "W7"),
   ("1215", "F16", "W7"), ("1221", "F0", "W7"), ("1222", "F0", "W7"), ("1223", "F0", "W7"),
   ("1224", "F0", "W7"), ("1225", "F17", "W7"), ("1231", "F2", "W7"), ("1232", "F2", "W7"),
   ("1233", "F2", "W7"), ("1234", "F2", "W7"), ("1235", "F17", "W7"), ("1241", "F2", "W7"),
   ("1242", "F0", "W7"), ("1243", "F0", "W7"), ("1244", "F0", "W7"), ("1245", "F18", "W7"),
   ("1251", "F9", "W1"), ("1252", "F9", "W1"), ("1253", "F9", "W1"), ("1254", "F12", "W1"),
   ("1255", "F12", "W1"), ("1261", "F12", "W2"), ("1262", "F12", "W2"), ("1263", "F12", "W2"),
   ("1264", "F12", "W2"), ("1265", "F12", "W2"), ("1271", "F12", "W3"), ("1272", "F12", "W3"),
   ("1273", "F12", "W3"), ("1274", "F12", "W3"), ("1275", "F12", "W3"), ("1281", "F12", "W4"),
   ("1282", "F12", "W4"), ("1283", "F12", "W4"), ("1284", "F12", "W4"), ("1285", "F12", "W4"),
   ("1411", "F0", "W7"), ("1412", "F0", "W7"), ("1413", "F0", "W7"), ("1414", "F3", "W7"),
   ("1415", "F14", "W7"), ("1421", "F3", "W7"), ("1422", "F3", "W7"), ("1423", "F3", "W7"),
   ("1424", "F3", "W7"), ("1425", "F14", "W7"), ("1431", "F0", "W7"), ("1432", "F3", "W7"),
   ("1433", "F3", "W7"), ("1434", "F3", "W7"), ("1435", "F14", "W7"), ("1441", "F0", "W7"),
   ("1442", "F19", "W7"), ("1443", "F19", "W7"), ("1444", "F3", "W7"), ("1445", "F14", "W7"),
   ("1451", "F9", "W1"), ("1452", "F12", "W1"), ("1453", "F12", "W1"), ("1454", "F12", "W1"),
   ("1455", "F12", "W1"), ("1461", "F12", "W2"), ("1462", "F12", "W2"), ("1463", "F12", "W2"),
   ("1464", "F12", "W2"), ("1465", "F12", "W2"), ("1471", "F12", "W3"), ("1472", "F12", "W3"),
   ("1473", "F12", "W3"), ("1474", "F12", "W3"), ("1475", "F12", "W3"), ("1481", "F12", "W4"),
   ("1482", "F12", "W4"), ("1483", "F12", "W4"), ("1484", "F12", "W4"), ("1485", "F12", "W4"),
   ("1111", "F2", "W7"), ("1112", "F2", "W7"), ("1113", "F2", "W7"), ("1114", "F2", "W7"),
   ("1115", "F18", "W7"), ("1121", "F3", "W7"), ("1122", "F1", "W7"), ("1123", "F1", "W7"),
   ("1124", "F1", "W7"), ("1125", "F19", "W7"), ("1131", "F2", "W7"), ("1132", "F0", "W7"),
   ("1133", "F0", "W7"), ("1134", "F0", "W7"), ("1135", "F18", "W7"), ("1141", "F3", "W7"),
   ("1142", "F1", "W7"), ("1143", "F1", "W7"), ("1144", "F1", "W7"), ("1145", "F19", "W7"),
   ("1151", "F9", "W1"), ("1152", "F12", "W1"), ("1153", "F12", "W1"), ("1154", "F12", "W1"),
   ("1155", "F12", "W1"), ("1161", "F12", "W2"), ("1162", "F12", "W2"), ("1163", "F12", "W2"),
   ("1164", "F12", "W2"), ("1165", "F12", "W2"), ("1171", "F12", "W3"), ("1172", "F12", "W3"),
   ("1173", "F12", "W3"), ("1174", "F12", "W3"), ("1175", "F12", "W3"), ("1181", "F12", "W4"),
   ("1182", "F12", "W4"), ("1183", "F12", "W4"), ("1184", "F12", "W4"), ("1185", "F12", "W4"),
   ("1511", "F6", "W0"), ("1512", "F6", "W0"), ("1513", "F6", "W0"), ("1514", "F6", "W0"),
   ("1515", "F8", "W0"), ("1521", "F7", "W1"), ("1522", "F7", "W1"), ("1523", "F7", "W1"),
   ("1524", "F7", "W1"), ("1525", "F9", "W1"), ("1531", "F7", "W1"), ("1532", "F7", "W1"),
   ("1533", "F7", "W1"), ("1534", "F7", "W1"), ("1535", "F9", "W1"), ("1541", "F7", "W1"),
   ("1542", "F7", "W1"), ("1543", "F7", "W1"), ("1544", "F9", "W1"), ("1545", "F9", "W1"),
   ("1551", "F9", "W1"), ("1552", "F12", "W1"), ("1553", "F12", "W1"), ("1554", "F12", "W1"),
   ("1555", "F12", "W1"), ("1561", "F12", "W2"), ("1562", "F12", "W2"), ("1563", "F12", "W2"),
   ("1564", "F12", "W2"), ("1565", "F12", "W2"), ("1571", "F12", "W3"), ("1572", "F12", "W3"),
   ("1573", "F12", "W3"), ("1574", "F12", "W3"), ("1575", "F12", "W3"), ("1581", "F12", "W4"),
   ("1582", "F12", "W4"), ("1583", "F12", "W4"), ("1584", "F12", "W4"), ("1585", "F12", "W4"),
   ("2211", "F0", "W7"), ("2212", "F0", "W7"), ("2213", "F0", "W7"), ("2214", "F0", "W7"),
   ("2215", "F16", "W7"), ("2221", "F0", "W7"), ("2222", "F0", "W7"), ("2223", "F0", "W7"),
   ("2224", "F0", "W7"), ("2225", "F17", "W7"), ("2231", "F2", "W7"), ("2232", "F2", "W7"),
   ("2233", "F2", "W7"), ("2234", "F2", "W7"), ("2235", "F17", "W7"), ("2241", "F2", "W7"),
   ("2242", "F0", "W7"), ("2243", "F0", "W7"), ("2244", "F0", "W7"), ("2245", "F18", "W7"),
   ("2251", "F9", "W1"), ("2252", "F12", "W1"), ("2253", "F12", "W1"), ("2254", "F12", "W1"),
   ("2255", "F12", "W1"), ("2261", "F12", "W2"), ("2262", "F12", "W2"), ("2263", "F12", "W2"),
   ("2264", "F12", "W2"), ("2265", "F12", "W2"), ("2271", "F12", "W3"), ("2272", "F12", "W3"),
   ("2273", "F12", "W3"), ("2274", "F12", "W3"), ("2275", "F12", "W3"), ("2281", "F12", "W4"),
   ("2282", "F12", "W4"), ("2283", "F12", "W4"), ("2284", "F12", "W4"), ("2285", "F12", "W4"),
   ("2411", "F0", "W7"), ("2412", "F3", "W7"), ("2413", "F3", "W7"), ("2414", "F3", "W7"),
   ("2415", "F14", "W7"), ("2421", "F0", "W7"), ("2422", "F3", "W7"), ("2423", "F6", "W7"),
   ("2424", "F6", "W7"), ("2425", "F8", "W7"), ("2431", "F0", "W7"), ("2432", "F3", "W7"),
   ("2433", "F6", "W7"), ("2434", "F6", "W7"), ("2435", "F8", "W7"), ("2441", "F0", "W7"),
   ("2442", "F3", "W7"), ("2443", "F6", "W7"), ("2444", "F6", "W7"), ("2445", "F8", "W7"),
   ("2451", "F9", "W1"), ("2452", "F12", "W1"), ("2453", "F12", "W1"), ("2454", "F12", "W1"),
   ("2455", "F12", "W1"), ("2461", "F12", "W2"), ("2462", "F12", "W2"), ("2463", "F12", "W2"),
   ("2464", "F12", "W2"), ("2465", "F12", "W2"), ("2471", "F12", "W3"), ("2472", "F12", "W3"),
   ("2473", "F12", "W3"), ("2474", "F12", "W3"), ("2475", "F12", "W3"), ("2481", "F12", "W4"),
   ("2482", "F12", "W4"), ("2483", "F12", "W4"), ("2484", "F12", "W4"), ("2485", "F12", "W4"),
   ("2111", "F2", "W7"), ("2112", "F0", "W7"), ("2113", "F0", "W7"), ("2114", "F0", "W7"),
   ("2115", "F18", "W7"), ("2121", "F2", "W7"), ("2122", "F0", "W7"), ("2123", "F0", "W7"),
   ("2124", "F0", "W7"), ("2125", "F18", "W7"), ("2131", "F2", "W7"), ("2132", "F0", "W7"),
   ("2133", "F0", "W7"), ("2134", "F0", "W7"), ("2135", "F18", "W7"), ("2141", "F2", "W7"),
   ("2142", "F0", "W7"), ("2143", "F0", "W7"), ("2144", "F0", "W7"), ("2145", "F18", "W7"),
   ("2151", "F9", "W1"), ("2152", "F12", "W1"), ("2153", "F12", "W1"), ("2154", "F12", "W1"),
   ("2155", "F12", "W1"), ("2161", "F12", "W2"), ("2162", "F12", "W2"), ("2163", "F12", "W2"),
   ("2164", "F12", "W2"), ("2165", "F12", "W2"), ("2171", "F12", "W3"), ("2172", "F12", "W3"),
   ("2173", "F12", "W3"), ("2174", "F12", "W3"), ("2175", "F12", "W3"), ("2181", "F12", "W4"),
   ("2182", "F12", "W4"), ("2183", "F12", "W4"), ("2184", "F12", "W4"), ("2185", "F12", "W4"),
   ("3211", "F2", "W7"), ("3212", "F2", "W7"), ("3213", "F2", "W7"), ("3214", "F2", "W7"),
   ("3215", "F17", "W7"), ("3221", "F2", "W7"), ("3222", "F2", "W7"), ("3223", "F2", "W7"),
   ("3224", "F2", "W7"), ("3225", "F17", "W7"), ("3231", "F2", "W7"), ("3232", "F2", "W7"),
   ("3233", "F2", "W7"), ("3234", "F2", "W7"), ("3235", "F17", "W7"), ("3241", "F2", "W7"),
   ("3242", "F2", "W7"), ("3243", "F2", "W7"), ("3244", "F2", "W7"), ("3245", "F17", "W7"),
   ("3251", "F9", "W1"), ("3252", "F12", "W1"), ("3253", "F12", "W1"), ("3254", "F12", "W1"),
   ("3255", "F12", "W1"), ("3261", "F12", "W2"), ("3262", "F12", "W2"), ("3263", "F12", "W2"),
   ("3264", "F12", "W2"), ("3265", "F12", "W2"), ("3271", "F12", "W3"), ("3272", "F12", "W3"),
   ("3273", "F12", "W3"), ("3274", "F12", "W3"), ("3275", "F12", "W3"), ("3281", "F12", "W4"),
   ("3282", "F12", "W4"), ("3283", "F12", "W4"), ("3284", "F12", "W4"), ("3285", "F12", "W4"),
   ("3411", "F0", "W7"), ("3412", "F3", "W7"), ("3413", "F3", "W7"), ("3414", "F3", "W7"),
   ("3415", "F14", "W7"), ("3421", "F3", "W7"), ("3422", "F3", "W7"), ("3423", "F3", "W7"),
   ("3424", "F3", "W7"), ("3425", "F14", "W7"), ("3431", "F0", "W7"), ("3432", "F3", "W7"),
   ("3433", "F3", "W7"), ("3434", "F3", "W7"), ("3435", "F14", "W7"), ("3441", "F0", "W7"),
   ("3442", "F3", "W7"), ("3443", "F6", "W7"), ("3444", "F6", "W7"), ("3445", "F8", "W7"),
   ("3451", "F9", "W1"), ("3452", "F12", "W1"), ("3453", "F12", "W1"), ("3454", "F12", "W1"),
   ("3455", "F12", "W1"), ("3461", "F12", "W2"), ("3462", "F12", "W2"), ("3463", "F12", "W2"),
   ("3464", "F12", "W2"), ("3465", "F12", "W2"), ("3471", "F12", "W3"), ("3472", "F12", "W3"),
   ("3473", "F12", "W3"), ("3474", "F12", "W3"), ("3475", "F12", "W3"), ("3481", "F12", "W4"),
   ("3482", "F12", "W4"), ("3483", "F12", "W4"), ("3484", "F12", "W4"), ("3485", "F12", "W4"),
   ("3111", "F2", "W7"), ("3112", "F2", "W7"), ("3113", "F2", "W7"), ("3114", "F2", "W7"),
   ("3115", "F18", "W7"), ("3121", "F2", "W7"), ("3122", "F0", "W7"), ("3123", "F0", "W7"),
   ("3124", "F0", "W7"), ("3125", "F18", "W7"), ("3131", "F2", "W7"), ("3132", "F0", "W7"),
   ("3133", "F0", "W7"), ("3134", "F0", "W7"), ("3135", "F18", "W7"), ("3141", "F2", "W7"),
   ("3142", "F0", "W7"), ("3143", "F0", "W7"), ("3144", "F0", "W7"), ("3145", "F18", "W7"),
   ("3151", "F9", "W1"), ("3152", "F12", "W1"), ("3153", "F12", "W1"), ("3154", "F12", "W1"),
   ("3155", "F12", "W1"), ("3161", "F12", "W2"), ("3162", "F12", "W2"), ("3163", "F12", "W2"),
   ("3164", "F12", "W2"), ("3165", "F12", "W2"), ("3171", "F12", "W3"), ("3172", "F12", "W3"),
   ("3173", "F12", "W3"), ("3174", "F12", "W3"), ("3175", "F12", "W3"), ("3181", "F12", "W4"),
   ("3182", "F12", "W4"), ("3183", "F12", "W4"), ("3184", "F12", "W4"), ("3185", "F12", "W4"),
   ("3511", "F6", "W0"), ("3512", "F6", "W0"), ("3513", "F6", "W0"), ("3514", "F6", "W0"),
   ("3515", "F8", "W0"), ("3521", "F7", "W1"), ("3522", "F7", "W1"), ("3523", "F7", "W1"),
   ("3524", "F7", "W1"), ("3525", "F9", "W1"), ("3531", "F7", "W1"), ("3532", "F7", "W1"),
   ("3533", "F7", "W1"), ("3534", "F7", "W1"), ("3535", "F9", "W1"), ("3541", "F7", "W1"),
   ("3542", "F7", "W1"), ("3543", "F7", "W1"), ("3544", "F9", "W1"), ("3545", "F9", "W1"),
   ("3551", "F9", "W1"), ("3552", "F12", "W1"), ("3553", "F12", "W1"), ("3554", "F12", "W1"),
   ("3555", "F12", "W1"), ("3561", "F12", "W2"), ("3562", "F12", "W2"), ("3563", "F12", "W2"),
   ("3564", "F12", "W2"), ("3565", "F12", "W2"), ("3571", "F12", "W3"), ("3572", "F12", "W3"),
   ("3573", "F12", "W3"), ("3574", "F12", "W3"), ("3575", "F12", "W3"), ("3581", "F12", "W4"),
   ("3582", "F12", "W4"), ("3583", "F12", "W4"), ("3584", "F12", "W4"), ("3585", "F12", "W4"),
   ("1611", "F11", "W2"), ("1612", "F11", "W2"), ("1613", "F11", "W2"), ("1614", "F11", "W2"),
   ("1615", "F11", "W2"), ("1621", "F11", "W2"), ("1622", "F11", "W2"), ("1623", "F11", "W2"),
   ("1624", "F11", "W2"), ("1625", "F11", "W2"), ("1631", "F11", "W2"), ("1632", "F11", "W2"),
   ("1633", "F11", "W2"), ("1634", "F11", "W2"), ("1635", "F11", "W2"), ("1641", "F11", "W2"),
   ("1642", "F11", "W2"), ("1643", "F11", "W2"), ("1644", "F11", "W2"), ("1645", "F11", "W2"),
   ("1651", "F12", "W2"), ("1652", "F12", "W2"), ("1653", "F12", "W2"), ("1654", "F12", "W2"),
   ("1655", "F12", "W2"), ("1711", "F11", "W3"), ("1712", "F11", "W3"), ("1713", "F11", "W3"),
   ("1714", "F11", "W3"), ("1715", "F11", "W3"), ("1721", "F11", "W3"), ("1722", "F11", "W3"),
   ("1723", "F11", "W3"), ("1724", "F11", "W3"), ("1725", "F11", "W3"), ("1731", "F11", "W3"),
   ("1732", "F11", "W3"), ("1733", "F11", "W3"), ("1734", "F11", "W3"), ("1735", "F11", "W3"),
   ("1741", "F11", "W3"), ("1742", "F11", "W3"), ("1743", "F11", "W3"), ("1744", "F11", "W3"),
   ("1745", "F11", "W3"), ("1751", "F12", "W3"), ("1752", "F12", "W3"), ("1753", "F12", "W3"),
   ("1754", "F12", "W3"), ("1755", "F12", "W3"), ("1811", "F11", "W4"), ("1812", "F11", "W4"),
   ("1813", "F11", "W4"), ("1814", "F11", "W4"), ("1815", "F11", "W4"), ("1821", "F11", "W4"),
   ("1822", "F11", "W4"), ("1823", "F11", "W4"), ("1824", "F11", "W4"), ("1825", "F11", "W4"),
   ("1831", "F11", "W4"), ("1832", "F11", "W4"), ("1833", "F11", "W4"), ("1834", "F11", "W4"),
   ("1835", "F11", "W4"), ("1841", "F11", "W4"), ("1842", "F11", "W4"), ("1843", "F11", "W4"),
   ("1844", "F11", "W4"), ("1845", "F11", "W4"), ("1851", "F12", "W4"), ("1852", "F12", "W4"),
   ("1853", "F12", "W4"), ("1854", "F12", "W4"), ("1855", "F12", "W4"), ("2611", "F11", "W2"),
   ("2612", "F11", "W2"), ("2613", "F11", "W2"), ("2614", "F11", "W2"), ("2615", "F11", "W2"),
   ("2621", "F11", "W2"), ("2622", "F11", "W2"), ("2623", "F11", "W2"), ("2624", "F11", "W2"),
   ("2625", "F11", "W2"), ("2631", "F11", "W2"), ("2632", "F11", "W2"), ("2633", "F11", "W2"),
   ("2634", "F11", "W2"), ("2635", "F11", "W2"), ("2641", "F11", "W2"), ("2642", "F11", "W2"),
   ("2643", "F11", "W2"), ("2644", "F11", "W2"), ("2645", "F11", "W2"), ("2651", "F12", "W2"),
   ("2652", "F12", "W2"), ("2653", "F12", "W2"), ("2654", "F12", "W2"), ("2655", "F12", "W2"),
   ("2711", "F11", "W3"), ("2712", "F11", "W3"), ("2713", "F11", "W3"), ("2714", "F11", "W3"),
   ("2715", "F11", "W3"), ("2721", "F11", "W3"), ("2722", "F11", "W3"), ("2723", "F11", "W3"),
   ("2724", "F11", "W3"), ("2725", "F11", "W3"), ("2731", "F11", "W3"), ("2732", "F11", "W3"),
   ("2733", "F11", "W3"), ("2734", "F11", "W3"), ("2735", "F11", "W3"), ("2741", "F11", "W3"),
   ("2742", "F11", "W3"), ("2743", "F11", "W3"), ("2744", "F11", "W3"), ("2745", "F11", "W3"),
   ("2751", "F12", "W3"), ("2752", "F12", "W3"), ("2753", "F12", "W3"), ("2754", "F12", "W3"),
   ("2755", "F12", "W3"), ("2811", "F11", "W4"), ("2812", "F11", "W4"), ("2813", "F11", "W4"),
   ("2814", "F11", "W4"), ("2815", "F11", "W4"), ("2821", "F11", "W4"), ("2822", "F11", "W4"),
   ("2823", "F11", "W4"), ("2824", "F11", "W4"), ("2825", "F11", "W4"), ("2831", "F11", "W4"),
   ("2832", "F11", "W4"), ("2833", "F11", "W4"), ("2834", "F11", "W4"), ("2835", "F11", "W4"),
   ("2841", "F11", "W4"), ("2842", "F11", "W4"), ("2843", "F11", "W4"), ("2844", "F11", "W4"),
   ("2845", "F11", "W4"), ("2851", "F12", "W4"), ("2852", "F12", "W4"), ("2853", "F12", "W4"),
   ("2854", "F12", "W4"), ("2855", "F12", "W4"), ("3611", "F11", "W2"), ("3612", "F11", "W2"),
   ("3613", "F11", "W2"), ("3614", "F11", "W2"), ("3615", "F11", "W2"), ("3621", "F11", "W2"),
   ("3622", "F11", "W2"), ("3623", "F11", "W2"), ("3624", "F11", "W2"), ("3625", "F11", "W2"),
   ("3631", "F11", "W2"), ("3632", "F11", "W2"), ("3633", "F11", "W2"), ("3634", "F11", "W2"),
   ("3635", "F11", "W2"), ("3641", "F11", "W2"), ("3642", "F11", "W2"), ("3643", "F11", "W2"),
   ("3644", "F11", "W2"), ("3645", "F11", "W2"), ("3651", "F12", "W2"), ("3652", "F12", "W2"),
   ("3653", "F12", "W2"), ("3654", "F12", "W2"), ("3655", "F12", "W2"), ("3711", "F11", "W3"),
   ("3712", "F11", "W3"), ("3713", "F11", "W3"), ("3714", "F11", "W3"), ("3715", "F11", "W3"),
   ("3721", "F11", "W3"), ("3722", "F11", "W3"), ("3723", "F11", "W3"), ("3724", "F11", "W3"),
   ("3725", "F11", "W3"), ("3731", "F11", "W3"), ("3732", "F11", "W3"), ("3733", "F11", "W3"),
   ("3734", "F11", "W3"), ("3735", "F11", "W3"), ("3741", "F11", "W3"), ("3742", "F11", "W3"),
   ("3743", "F11", "W3"), ("3744", "F11", "W3"), ("3745", "F11", "W3"), ("3751", "F12", "W3"),
   ("3752", "F12", "W3"), ("3753", "F12", "W3"), ("3754", "F12", "W3"), ("3755", "F12", "W3"),
   ("3811", "F11", "W4"), ("3812", "F11", "W4"), ("3813", "F11", "W4"), ("3814", "F11", "W4"),
   ("3815", "F11", "W4"), ("3821", "F11", "W4"), ("3822", "F11", "W4"), ("3823", "F11", "W4"),
   ("3824", "F11", "W4"), ("3825", "F11", "W4"), ("3831", "F11", "W4"), ("3832", "F11", "W4"),
   ("3833", "F11", "W4"), ("3834", "F11", "W4"), ("3835", "F11", "W4"), ("3841", "F11", "W4"),
   ("3842", "F11", "W4"), ("3843", "F11", "W4"), ("3844", "F11", "W4"), ("3845", "F11", "W4"),
   ("3851", "F12", "W4"), ("3852", "F12", "W4"), ("3853", "F12", "W4"), ("3854", "F12", "W4"),
   ("3855", "F12", "W4")]

/-- Lookup-or-default step of `_sager_algorithm`: hit gives confidence 95,
miss substitutes the default entry `("F3", "W7")` with confidence 60. -/
def sagerLookup (key : String) : String × String × ℕ :=
  match SAGER_FORECAST_MAP.lookup key with
  | some fw => (fw.1, fw.2, 95)
  | none => ("F3", "W7", 60)

/-- The f-string key `z_rumbo z_hpa z_trend z_nubes`. -/
def sagerKey (z_rumbo z_hpa z_trend z_nubes : ℕ) : String :=
  toString z_rumbo ++ toString z_hpa ++ toString z_trend ++ toString z_nubes

/-- Python `int(s)` for a nonnegative decimal string; `none` when the
string is empty or not all digits (`ValueError`). -/
def strToNat? (s : String) : Option ℕ :=
  if s.toList ≠ [] ∧ s.toList.all Char.isDigit then
    some (s.toList.foldl (fun n c => 10 * n + (c.toNat - 48)) 0)
  else none

/-- `int(f_code[1:])` and `int(w_code[1:]) if w_code != "FF" else 7`, with
the joint exception fallback `(3, 7)`. -/
def parseCodes (f_code w_code : String) : ℕ × ℕ :=
  match strToNat? (f_code.drop 1),
      (if w_code = "FF" then some 7 else strToNat? (w_code.drop 1)) with
  | some fi, some wi => (fi, wi)
  | _, _ => (3, 7)

/-- Numeric forecast index to letter code, default `"d"` (unsettled). -/
def decodeForecast (forecast_idx : ℕ) : String :=
  if forecast_idx < FORECAST_CODES.length then FORECAST_CODES.getD forecast_idx "d"
  else "d"

/-- Temperature refinement: shower-type codes get a "1"/"2" suffix when a
temperature reading is available. -/
def refineTemp (code : String) (temperature : Option ℚ) : String :=
  if code ∈ SHOWER_FORECAST_CODES then
    match temperature with
    | some t => code ++ (if TEMP_THRESHOLD_FLURRIES < t then "1" else "2")
    | none => code
  else code

/-- `wind_index_map` built from the zone array, with calm mapped to 7 and
unknown directions defaulting to 7. -/
def windIndexMap (zone : List String) (w : String) : ℕ :=
  if w = WIND_CARDINAL_CALM then 7
  else if w ∈ zone then zone.indexOf w else 7

structure SensorData where
  pressure : ℚ
  wind_direction : ℚ
  wind_speed : ℚ
  wind_historic : ℚ
  pressure_change : ℚ
  cloud_cover : ℚ
  raining : Bool
  temperature : Option ℚ

structure SagerForecast where
  forecast_code : String
  wind_velocity_key : String
  wind_direction_key : String
  hpa_level : ℕ
  wind_dir : String
  wind_trend : String
  pressure_trend : String
  cloud_level : String
  confidence : ℕ
deriving DecidableEq

/-- The lookup key `_sager_algorithm` assembles from the derived signals. -/
def sagerAlgKey (isSouthern : Bool) (data : SensorData) : String :=
  sagerKey (get_wind_trend isSouthern data.wind_direction data.wind_historic)
    (get_hpa_level data.pressure)
    (get_pressure_trend data.pressure_change)
    (get_cloud_level data.cloud_cover data.raining)

def trend_names : List String := ["STEADY", "VEERING", "BACKING"]

def pressure_names : List String :=
  ["Rising Rapidly", "Rising Slowly", "Normal", "Decreasing Slowly",
   "Decreasing Rapidly"]

def cloud_names : List String :=
  ["Clear", "Partly Cloudy", "Mostly Cloudy", "Overcast", "Raining"]

/-- `_sager_algorithm` (log side effects and the latitude-zone display
name omitted). -/
def sager_algorithm (isSouthern : Bool) (zone : List String)
    (data : SensorData) : SagerForecast :=
  let z_hpa := get_hpa_level data.pressure
  let z_wind := get_wind_dir data.wind_direction data.wind_speed
  let z_rumbo := get_wind_trend isSouthern data.wind_direction data.wind_historic
  let z_trend := get_pressure_trend data.pressure_change
  let z_nubes := get_cloud_level data.cloud_cover data.raining
  let wind_index := windIndexMap zone z_wind
  let fw := sagerLookup (sagerAlgKey isSouthern data)
  let idxs := parseCodes fw.1 fw.2.1
  { forecast_code := refineTemp (decodeForecast idxs.1) data.temperature
    wind_velocity_key :=
      if idxs.2 < WIND_VELOCITY_KEYS.length then
        WIND_VELOCITY_KEYS.getD idxs.2 "no_significant_change"
      else "no_significant_change"
    wind_direction_key :=
      if wind_index < WIND_DIRECTION_KEYS.length then
        WIND_DIRECTION_KEYS.getD wind_index "nw_or_n"
      else "nw_or_n"
    hpa_level := z_hpa
    wind_dir := z_wind
    wind_trend := trend_names.getD (z_rumbo - 1) "STEADY"
    pressure_trend := pressure_names.getD (z_trend - 1) "Normal"
    cloud_level := cloud_names.getD (z_nubes - 1) "Clear"
    confidence := fw.2.2 }


/-! ## Cross-validator (`_cross_validate`) -/

/-- The severity ranking used by `_cross_validate` (lookup default 1). -/
def severityMap : List (String × ℤ) :=
  [("sunny", 0), ("clear-night", 0), ("partlycloudy", 1), ("cloudy", 2),
   ("rainy", 3), ("snowy", 3), ("pouring", 4)]

def getSeverity (condition : String) : ℤ :=
  (severityMap.lookup condition).getD 1

/-- `FORECAST_CONDITIONS.get(forecast_code, "partlycloudy")`. -/
def sagerCondition (forecast_code : String) : String :=
  (FORECAST_CONDITIONS.lookup forecast_code).getD "partlycloudy"

structure CrossValidated where
  confidence : ℤ
  cross_validation : String
deriving DecidableEq

/-- `_cross_validate`: adjust the Sager confidence by the absolute
severity difference with the Zambretti condition. -/
def cross_validate (forecast_code : String) (confidence : ℤ)
    (zambretti_condition : String) : CrossValidated :=
  let sager_sev := getSeverity (sagerCondition forecast_code)
  let zambretti_sev := getSeverity zambretti_condition
  let diff := |sager_sev - zambretti_sev|
  if diff = 0 then ⟨min (confidence + 10) 99, "agree"⟩
  else if diff = 1 then ⟨confidence, "close"⟩
  else if diff = 2 then ⟨max (confidence - 10) 40, "diverge"⟩
  else ⟨max (confidence - 20) 30, "conflict"⟩

/-! ## Lux-to-cloud-cover model (`_lux_to_cloud_cover`) -/

/-- Oracle for Python's float transcendental operations: `sinDeg e`
stands for `math.sin(math.radians(e))`, `sqrt x` for `x ** 0.5`, `powC x`
for `LUX_ATMOSPHERIC_C ** x`, `log x` for `math.log(x)`. The bounds
proved below hold for every oracle. -/
structure FloatOracle where
  sinDeg : ℚ → ℚ
  sqrt : ℚ → ℚ
  powC : ℚ → ℚ
  log : ℚ → ℚ

/-- The Kasten & Czeplak clear-sky illuminance value. -/
def clear_sky_lux (o : FloatOracle) (elevation : ℚ) : ℚ :=
  let sin_elev := o.sinDeg elevation
  let airmass_term := o.sqrt (1229 + (614 * sin_elev) ^ 2) - 614 * sin_elev
  LUX_CLEAR_SKY_COEFFICIENT *
    (LUX_ATMOSPHERIC_A + LUX_ATMOSPHERIC_B * o.powC airmass_term) * sin_elev

/-- `_lux_to_cloud_cover`: `sunState = none` models a missing `sun.sun`
state or a non-numeric elevation attribute; `omCloud` is the Open-Meteo
current cloud cover used at or below the 1° elevation threshold. -/
def lux_to_cloud_cover (o : FloatOracle) (omCloud : Option ℚ)
    (sunState : Option ℚ) (lux : ℚ) : ℚ :=
  match sunState with
  | none => 50
  | some elevation =>
    if elevation ≤ 1 then
      match omCloud with
      | some c => c
      | none => 50
    else
      let clear_sky := clear_sky_lux o elevation
      if clear_sky ≤ 0 then 50
      else
        let factor := clear_sky / max lux 0.001
        max 0 (min 100 (o.log factor * 100))

/-! ## Sager hourly baseline cloud cover (`_generate_sager_hourly_forecast`) -/

/-- Hour-`i` cloud cover of the 48-hour Sager hourly baseline
(`weather.py`): 3-segment transition, clamp to [0, 100], then Python
`round(x, 1)` abstracted as the oracle `round1`. -/
def sager_hourly_cloud (round1 : ℚ → ℚ)
    (current_cloud target_cloud_p1 target_cloud_p2 : ℚ) (i : ℕ) : ℚ :=
  let cloud :=
    if i < 12 then
      current_cloud + (target_cloud_p1 - current_cloud) * ((i : ℚ) / 12)
    else if i < 24 then target_cloud_p1
    else if i < 36 then
      target_cloud_p1 + (target_cloud_p2 - target_cloud_p1) * (((i : ℚ) - 24) / 12)
    else target_cloud_p2
  round1 (max 0 (min 100 cloud))

/-- Modelled from the claim text of C8: linearly from the current reading
to the period-1 target over hours 0–12, flat at the period-1 target for
hours 12–24, linearly from the period-1 target to the period-2 target
over hours 24–36, flat at the period-2 target thereafter, each value
clamped to [0, 100]. -/
def specCloudTransition (current p1 p2 : ℚ) (i : ℕ) : ℚ :=
  let v :=
    if i ≤ 12 then current + (p1 - current) * ((i : ℚ) / 12)
    else if i ≤ 24 then p1
    else if i ≤ 36 then p1 + (p2 - p1) * (((i : ℚ) - 24) / 12)
    else p2
  max 0 (min 100 v)

/-! ## Sky-model calibration state (spec-modelled) -/

/-- Modelled from the spec: the Sky-to-Cloud-Cover Model's calibration
update, absent from this repository generation's source. One exponential
moving-average step with α = 0.15, applied only when the observed factor
lies within the sanity bound [0.4, 1.4]. -/
def update_calibration (old observed : ℚ) : ℚ :=
  if 0.4 ≤ observed ∧ observed ≤ 1.4 then
    (1 - 0.15) * old + 0.15 * observed
  else old

/-- Modelled from the spec: a sequence of calibration update cycles. -/
def run_calibration (init : ℚ) (observations : List ℚ) : ℚ :=
  observations.foldl update_calibration init

/-! ## Cloud-cover acquisition and fallback (`_get_cloud_cover`,
`_async_update_data`) -/

/-- A Home Assistant entity state: the raw `state` string, the parsed
float when `float(state)` succeeds, and the `unit_of_measurement`
attribute. -/
structure EntityState where
  state : String
  parsed : Option ℚ
  unit : String

/-- `_get_cloud_cover`: 0.0 when no entity is configured, when the state
object is missing or reads unavailable/unknown/none, or when float
parsing fails; a lux reading goes through the conversion (`luxConv`
stands for `_lux_to_cloud_cover` at the current sun state), a percentage
reading is clamped to [0, 100]. -/
def get_cloud_cover (configured : Bool) (st : Option EntityState)
    (luxConv : ℚ → ℚ) : ℚ :=
  if configured = false then 0
  else
    match st with
    | none => 0
    | some s =>
      if s.state = "unavailable" ∨ s.state = "unknown" ∨ s.state = "none" then 0
      else
        match s.parsed with
        | none => 0
        | some v => if s.unit = "lx" then luxConv v else max 0 (min 100 v)

/-- The `_async_update_data` fallback: the Open-Meteo current cloud cover
(`omData = some (some c)` when data was fetched and carries a current
cloud cover) replaces the sensor value only when no cloud-cover entity is
configured. -/
def effective_cloud_cover (configured : Bool) (st : Option EntityState)
    (luxConv : ℚ → ℚ) (omData : Option (Option ℚ)) : ℚ :=
  let base := get_cloud_cover configured st luxConv
  if configured = false then
    match omData with
    | some (some c) => c
    | _ => base
  else base

/-! ## Theorems for the spec claims -/

/-! ## C1: Sager table lookup determinism and default -/

/-- C1: the Sager engine's table lookup is deterministic: when the 4-part
key is present the returned confidence is exactly 95; when absent the
engine substitutes the documented default entry `("F3", "W7")` with
confidence exactly 60, and that default decodes to forecast code "d"
(unsettled); the same input tuple always yields the same forecast. -/
theorem sager_lookup_hit_and_miss :
    ∀ (isSouthern : Bool) (zone : List String) (data : SensorData) (key : String),
      ((SAGER_FORECAST_MAP.lookup key).isSome = true →
        (sagerLookup key).2.2 = 95) ∧
      (SAGER_FORECAST_MAP.lookup key = none →
        sagerLookup key = ("F3", "W7", 60) ∧
        refineTemp (decodeForecast (parseCodes "F3" "W7").1) data.temperature = "d") ∧
      ((SAGER_FORECAST_MAP.lookup (sagerAlgKey isSouthern data)).isSome = true →
        (sager_algorithm isSouthern zone data).confidence = 95) ∧
      (SAGER_FORECAST_MAP.lookup (sagerAlgKey isSouthern data) = none →
        (sager_algorithm isSouthern zone data).confidence = 60 ∧
        (sager_algorithm isSouthern zone data).forecast_code = "d") ∧
      (∀ data₂ : SensorData, data = data₂ →
        sager_algorithm isSouthern zone data = sager_algorithm isSouthern zone data₂) := by
  intro iso zone data key
  have hdec : ∀ t : Option ℚ,
      refineTemp (decodeForecast (parseCodes "F3" "W7").1) t = "d" := by
    intro t
    have h1 : (parseCodes "F3" "W7").1 = 3 := by decide
    have h2 : decodeForecast 3 = "d" := by decide
    rw [h1, h2]
    simp [refineTemp, SHOWER_FORECAST_CODES]
  refine ⟨?_, ?_, ?_, ?_, ?_⟩
  · intro hs
    rcases Option.isSome_iff_exists.mp hs with ⟨v, hv⟩
    simp [sagerLookup, hv]
  · intro hn
    exact ⟨by simp [sagerLookup, hn], hdec data.temperature⟩
  · intro hs
    rcases Option.isSome_iff_exists.mp hs with ⟨v, hv⟩
    simp [sager_algorithm, sagerLookup, hv]
  · intro hn
    exact ⟨by simp [sager_algorithm, sagerLookup, hn],
      by simp [sager_algorithm, sagerLookup, hn, hdec data.temperature]⟩
  · intro data₂ h
    rw [h]

set_option maxRecDepth 40000 in
/-- C1 witness: `sager_lookup_hit_and_miss` applied to a hit (key "1311",
reached from pressure 1015, steady wind, rapidly rising pressure, clear
sky) and to a miss (key "2531", reached from pressure 1000 with veering
wind, a key absent from the table). -/
theorem sager_lookup_hit_and_miss_witness :
    (sagerLookup "1311").2.2 = 95 ∧
    sagerLookup "0000" = ("F3", "W7", 60) ∧
    (sager_algorithm false ZONE_DIRECTIONS_NT
      (⟨1015, 0, 5, 0, 2, 0, false, none⟩ : SensorData)).confidence = 95 ∧
    (sager_algorithm false ZONE_DIRECTIONS_NT
      (⟨1000, 100, 5, 10, 0, 0, false, none⟩ : SensorData)).confidence = 60 ∧
    (sager_algorithm false ZONE_DIRECTIONS_NT
      (⟨1000, 100, 5, 10, 0, 0, false, none⟩ : SensorData)).forecast_code = "d" := by
  have e1 : get_wind_trend false 0 0 = 1 := by simp [get_wind_trend]
  have e2 : get_hpa_level 1015 = 3 := by
    norm_num [get_hpa_level, HPA_LEVELS, hpaRowMatches]
  have e3 : get_pressure_trend 2 = 1 := by norm_num [get_pressure_trend]
  have e4 : get_cloud_level 0 false = 1 := by norm_num [get_cloud_level]
  have f1 : get_wind_trend false 100 10 = 2 := by norm_num [get_wind_trend, pymod]
  have f2 : get_hpa_level 1000 = 5 := by
    norm_num [get_hpa_level, HPA_LEVELS, hpaRowMatches]
  have f3 : get_pressure_trend 0 = 3 := by norm_num [get_pressure_trend]
  have hk1 : sagerAlgKey false (⟨1015, 0, 5, 0, 2, 0, false, none⟩ : SensorData) = "1311" := by
    simp only [sagerAlgKey]
    rw [e1, e2, e3, e4]
    decide
  have hk2 : sagerAlgKey false (⟨1000, 100, 5, 10, 0, 0, false, none⟩ : SensorData) = "2531" := by
    simp only [sagerAlgKey]
    rw [f1, f2, f3, e4]
    decide
  have h1 := sager_lookup_hit_and_miss false ZONE_DIRECTIONS_NT
      (⟨1015, 0, 5, 0, 2, 0, false, none⟩ : SensorData) "1311"
  have h2 := sager_lookup_hit_and_miss false ZONE_DIRECTIONS_NT
      (⟨1000, 100, 5, 10, 0, 0, false, none⟩ : SensorData) "0000"
  refine ⟨h1.1 (by decide), (h2.2.1 (by decide)).1, ?_, ?_, ?_⟩
  · exact h1.2.2.1 (by rw [hk1]; decide)
  · exact (h2.2.2.2.1 (by rw [hk2]; decide)).1
  · exact (h2.2.2.2.1 (by rw [hk2]; decide)).2


/-! ## C2: the key does not contain a wind letter -/

set_option maxRecDepth 40000 in
/-- C2 counterexample: two inputs that differ only in cardinal wind
direction (N at 0° vs E at 90°, same wind trend, pressure level, pressure
trend and cloud level) select the same table entry and confidence: the
lookup key starts with the wind-trend digit, not a direction-dependent
wind letter, so the entry does not vary with the cardinal direction. -/
theorem sager_key_ignores_direction_cex :
    (sager_algorithm false ZONE_DIRECTIONS_NT
        (⟨1020, 0, 10, 0, 0, 10, false, none⟩ : SensorData)).wind_dir = "N" ∧
    (sager_algorithm false ZONE_DIRECTIONS_NT
        (⟨1020, 90, 10, 0, 0, 10, false, none⟩ : SensorData)).wind_dir = "E" ∧
    (sager_algorithm false ZONE_DIRECTIONS_NT
        (⟨1020, 0, 10, 0, 0, 10, false, none⟩ : SensorData)).forecast_code =
      (sager_algorithm false ZONE_DIRECTIONS_NT
        (⟨1020, 90, 10, 0, 0, 10, false, none⟩ : SensorData)).forecast_code ∧
    (sager_algorithm false ZONE_DIRECTIONS_NT
        (⟨1020, 0, 10, 0, 0, 10, false, none⟩ : SensorData)).confidence =
      (sager_algorithm false ZONE_DIRECTIONS_NT
        (⟨1020, 90, 10, 0, 0, 10, false, none⟩ : SensorData)).confidence := by
  have e1 : get_wind_trend false 0 0 = 1 := by simp [get_wind_trend]
  have e1b : get_wind_trend false 90 0 = 1 := by simp [get_wind_trend]
  have e2 : get_hpa_level 1020 = 2 := by
    norm_num [get_hpa_level, HPA_LEVELS, hpaRowMatches]
  have e3 : get_pressure_trend 0 = 3 := by norm_num [get_pressure_trend]
  have e4 : get_cloud_level 10 false = 1 := by norm_num [get_cloud_level]
  have w1 : get_wind_dir 0 10 = "N" := by norm_num [get_wind_dir, pyint]
  have w2 : get_wind_dir 90 10 = "E" := by
    norm_num [get_wind_dir, pyint]
    rfl
  have hk1 : sagerAlgKey false (⟨1020, 0, 10, 0, 0, 10, false, none⟩ : SensorData) = "1231" := by
    simp only [sagerAlgKey]
    rw [e1, e2, e3, e4]
    decide
  have hk2 : sagerAlgKey false (⟨1020, 90, 10, 0, 0, 10, false, none⟩ : SensorData) = "1231" := by
    simp only [sagerAlgKey]
    rw [e1b, e2, e3, e4]
    decide
  refine ⟨?_, ?_, ?_, ?_⟩
  · simp [sager_algorithm, w1]
  · simp [sager_algorithm, w2]
  · simp [sager_algorithm, hk1, hk2]
  · simp [sager_algorithm, hk1, hk2]

/-- C2 (amended): the lookup key is the wind-trend digit followed by the
pressure-level, pressure-trend and cloud-level digits; the cardinal wind
direction is mapped through the zone-specific array only for the reported
wind-direction class. Hence, for a fixed wind trend and fixed pressure
and cloud inputs, the selected table entry and confidence are independent
of the cardinal wind direction. -/
theorem sager_entry_independent_of_direction :
    ∀ (isSouthern : Bool) (zone : List String) (data : SensorData) (dir' : ℚ),
      get_wind_trend isSouthern dir' data.wind_historic =
        get_wind_trend isSouthern data.wind_direction data.wind_historic →
      (sager_algorithm isSouthern zone
          { data with wind_direction := dir' }).forecast_code =
        (sager_algorithm isSouthern zone data).forecast_code ∧
      (sager_algorithm isSouthern zone
          { data with wind_direction := dir' }).confidence =
        (sager_algorithm isSouthern zone data).confidence := by
  intro iso zone data dir' h
  have hkey : sagerAlgKey iso { data with wind_direction := dir' } =
      sagerAlgKey iso data := by
    simp [sagerAlgKey, h]
  constructor <;> simp [sager_algorithm, hkey]

/-- C2 witness: the independence theorem applied at a concrete input
(direction changed from 0° to 90° with historic direction 0, so the wind
trend is unchanged). -/
theorem sager_entry_independent_of_direction_witness :
    (sager_algorithm false ZONE_DIRECTIONS_NT
        { (⟨1020, 0, 10, 0, 0, 10, false, none⟩ : SensorData) with
            wind_direction := (90 : ℚ) }).forecast_code =
      (sager_algorithm false ZONE_DIRECTIONS_NT
        (⟨1020, 0, 10, 0, 0, 10, false, none⟩ : SensorData)).forecast_code ∧
    (sager_algorithm false ZONE_DIRECTIONS_NT
        { (⟨1020, 0, 10, 0, 0, 10, false, none⟩ : SensorData) with
            wind_direction := (90 : ℚ) }).confidence =
      (sager_algorithm false ZONE_DIRECTIONS_NT
        (⟨1020, 0, 10, 0, 0, 10, false, none⟩ : SensorData)).confidence :=
  sager_entry_independent_of_direction false ZONE_DIRECTIONS_NT
    (⟨1020, 0, 10, 0, 0, 10, false, none⟩ : SensorData) 90
    (by simp [get_wind_trend])


/-! ## C3: wind-trend hemisphere scenario -/

/-- C3 counterexample: with current direction 200° and historic 10°, the
signed smallest angular difference is −170° (counter-clockwise), so the
calculator does NOT return VEERING (code 2) in the northern hemisphere,
nor BACKING (code 3) in the southern hemisphere — the claim has the two
hemispheres swapped. -/
theorem wind_trend_scenario_c_cex :
    ¬ (get_wind_trend false 200 10 = 2 ∧ get_wind_trend true 200 10 = 3) := by
  intro h
  have h1 : get_wind_trend false 200 10 = 3 := by
    norm_num [get_wind_trend, pymod]
  rw [h1] at h
  exact absurd h.1 (by norm_num)

/-- C3 (amended): for current direction 200° and historic 10° the signed
angular difference normalises to −170°, so a northern-hemisphere
installation reports BACKING (code 3) and a southern-hemisphere
installation reports VEERING (code 2). -/
theorem wind_trend_scenario_c :
    get_wind_trend false 200 10 = 3 ∧ get_wind_trend true 200 10 = 2 := by
  constructor <;> norm_num [get_wind_trend, pymod]

/-! ## C4: scenario B signals -/

/-- C4 counterexample: at pressure 980 hPa with a −2.0 hPa change over the
window, the Zambretti engine halves the change to −1.0 hPa per 3 h, which
is inside the ±1.6 threshold, so the trend is NOT classified "falling". -/
theorem scenario_b_zambretti_cex :
    (zambretti_forecast 980 (-2.0) 0).trend ≠ "falling" := by
  have h : (zambretti_forecast 980 (-2.0) 0).trend = "steady" := by
    unfold zambretti_forecast
    norm_num [ZAMBRETTI_TREND_THRESHOLD]
    split <;> rfl
  rw [h]
  decide

/-- C4 (amended): with pressure 980 hPa, change −2.0 hPa and raining true,
the cloud level is 5 (rain overrides the percentage), the pressure trend
is 5 (decreasing rapidly), and the Zambretti engine classifies the trend
as "steady" (the halved 3-hour change −1.0 lies inside ±1.6), for every
cloud-cover percentage and wind direction. -/
theorem scenario_b_signals :
    ∀ (cover wind_dir : ℚ),
      get_cloud_level cover true = 5 ∧
      get_pressure_trend (-2.0) = 5 ∧
      (zambretti_forecast 980 (-2.0) wind_dir).trend = "steady" := by
  intro cover wind_dir
  refine ⟨by simp [get_cloud_level], by norm_num [get_pressure_trend], ?_⟩
  unfold zambretti_forecast
  norm_num [ZAMBRETTI_TREND_THRESHOLD]
  split <;> rfl

/-! ## C5: pressure-level partition -/

/-- C5: for every pressure in [900, 1100] exactly one `HPA_LEVELS` band
claims it under the `min ≤ hpa < max` rule, and 1029.46 hPa (a boundary
value) is classified level 1, the higher-pressure band. -/
theorem hpa_partition_total_unique :
    (∀ hpa : ℚ, 900 ≤ hpa → hpa ≤ 1100 →
      (HPA_LEVELS.filter (fun row => hpaRowMatches hpa row)).length = 1) ∧
    get_hpa_level (1029.46 : ℚ) = 1 := by
  constructor
  · intro hpa h900 h1100
    rcases le_or_lt 1029.46 hpa with h1 | h1
    · have n2 : ¬ hpa < 1029.46 := not_lt.mpr h1
      have n3 : ¬ hpa < 1019.30 := by intro h; exact absurd h1 (by linarith)
      have n4 : ¬ hpa < 1012.53 := by intro h; exact absurd h1 (by linarith)
      have n5 : ¬ hpa < 1005.76 := by intro h; exact absurd h1 (by linarith)
      have n6 : ¬ hpa < 999.00 := by intro h; exact absurd h1 (by linarith)
      have n7 : ¬ hpa < 988.80 := by intro h; exact absurd h1 (by linarith)
      have n8 : ¬ hpa < 975.28 := by intro h; exact absurd h1 (by linarith)
      simp [HPA_LEVELS, hpaRowMatches, h1, n2, n3, n4, n5, n6, n7, n8]
    rcases le_or_lt 1019.30 hpa with h2 | h2
    · have m1 : ¬ 1029.46 ≤ hpa := not_le.mpr h1
      have n3 : ¬ hpa < 1019.30 := not_lt.mpr h2
      have n4 : ¬ hpa < 1012.53 := by intro h; exact absurd h2 (by linarith)
      have n5 : ¬ hpa < 1005.76 := by intro h; exact absurd h2 (by linarith)
      have n6 : ¬ hpa < 999.00 := by intro h; exact absurd h2 (by linarith)
      have n7 : ¬ hpa < 988.80 := by intro h; exact absurd h2 (by linarith)
      have n8 : ¬ hpa < 975.28 := by intro h; exact absurd h2 (by linarith)
      simp [HPA_LEVELS, hpaRowMatches, h1, h2, m1, n3, n4, n5, n6, n7, n8]
    rcases le_or_lt 1012.53 hpa with h3 | h3
    · have m1 : ¬ 1029.46 ≤ hpa := by intro h; exact absurd h3 (by linarith)
      have m2 : ¬ 1019.30 ≤ hpa := not_le.mpr h2
      have n4 : ¬ hpa < 1012.53 := not_lt.mpr h3
      have n5 : ¬ hpa < 1005.76 := by intro h; exact absurd h3 (by linarith)
      have n6 : ¬ hpa < 999.00 := by intro h; exact absurd h3 (by linarith)
      have n7 : ¬ hpa < 988.80 := by intro h; exact absurd h3 (by linarith)
      have n8 : ¬ hpa < 975.28 := by intro h; exact absurd h3 (by linarith)
      simp [HPA_LEVELS, hpaRowMatches, h1, h2, h3, m1, m2, n4, n5, n6, n7, n8]
    rcases le_or_lt 1005.76 hpa with h4 | h4
    · have m1 : ¬ 1029.46 ≤ hpa := by intro h; exact absurd h4 (by linarith)
      have m2 : ¬ 1019.30 ≤ hpa := by intro h; exact absurd h4 (by linarith)
      have m3 : ¬ 1012.53 ≤ hpa := not_le.mpr h3
      have n5 : ¬ hpa < 1005.76 := not_lt.mpr h4
      have n6 : ¬ hpa < 999.00 := by intro h; exact absurd h4 (by linarith)
      have n7 : ¬ hpa < 988.80 := by intro h; exact absurd h4 (by linarith)
      have n8 : ¬ hpa < 975.28 := by intro h; exact absurd h4 (by linarith)
      simp [HPA_LEVELS, hpaRowMatches, h1, h2, h3, h4, m1, m2, m3, n5, n6, n7, n8]
    rcases le_or_lt 999.00 hpa with h5 | h5
    · have m1 : ¬ 1029.46 ≤ hpa := by intro h; exact absurd h5 (by linarith)
      have m2 : ¬ 1019.30 ≤ hpa := by intro h; exact absurd h5 (by linarith)
      have m3 : ¬ 1012.53 ≤ hpa := by intro h; exact absurd h5 (by linarith)
      have m4 : ¬ 1005.76 ≤ hpa := not_le.mpr h4
      have n6 : ¬ hpa < 999.00 := not_lt.mpr h5
      have n7 : ¬ hpa < 988.80 := by intro h; exact absurd h5 (by linarith)
      have n8 : ¬ hpa < 975.28 := by intro h; exact absurd h5 (by linarith)
      simp [HPA_LEVELS, hpaRowMatches, h1, h2, h3, h4, h5, m1, m2, m3, m4, n6, n7, n8]
    rcases le_or_lt 988.80 hpa with h6 | h6
    · have m1 : ¬ 1029.46 ≤ hpa := by intro h; exact absurd h6 (by linarith)
      have m2 : ¬ 1019.30 ≤ hpa := by intro h; exact absurd h6 (by linarith)
      have m3 : ¬ 1012.53 ≤ hpa := by intro h; exact absurd h6 (by linarith)
      have m4 : ¬ 1005.76 ≤ hpa := by intro h; exact absurd h6 (by linarith)
      have m5 : ¬ 999.00 ≤ hpa := not_le.mpr h5
      have n7 : ¬ hpa < 988.80 := not_lt.mpr h6
      have n8 : ¬ hpa < 975.28 := by intro h; exact absurd h6 (by linarith)
      simp [HPA_LEVELS, hpaRowMatches, h1, h2, h3, h4, h5, h6, m1, m2, m3, m4, m5, n7, n8]
    rcases le_or_lt 975.28 hpa with h7 | h7
    · have m1 : ¬ 1029.46 ≤ hpa := by intro h; exact absurd h7 (by linarith)
      have m2 : ¬ 1019.30 ≤ hpa := by intro h; exact absurd h7 (by linarith)
      have m3 : ¬ 1012.53 ≤ hpa := by intro h; exact absurd h7 (by linarith)
      have m4 : ¬ 1005.76 ≤ hpa := by intro h; exact absurd h7 (by linarith)
      have m5 : ¬ 999.00 ≤ hpa := by intro h; exact absurd h7 (by linarith)
      have m6 : ¬ 988.80 ≤ hpa := not_le.mpr h6
      have n8 : ¬ hpa < 975.28 := not_lt.mpr h7
      simp [HPA_LEVELS, hpaRowMatches, h1, h2, h3, h4, h5, h6, h7,
        m1, m2, m3, m4, m5, m6, n8]
    · have m1 : ¬ 1029.46 ≤ hpa := by intro h; exact absurd h7 (by linarith)
      have m2 : ¬ 1019.30 ≤ hpa := by intro h; exact absurd h7 (by linarith)
      have m3 : ¬ 1012.53 ≤ hpa := by intro h; exact absurd h7 (by linarith)
      have m4 : ¬ 1005.76 ≤ hpa := by intro h; exact absurd h7 (by linarith)
      have m5 : ¬ 999.00 ≤ hpa := by intro h; exact absurd h7 (by linarith)
      have m6 : ¬ 988.80 ≤ hpa := by intro h; exact absurd h7 (by linarith)
      have m7 : ¬ 975.28 ≤ hpa := not_le.mpr h7
      simp [HPA_LEVELS, hpaRowMatches, h1, h2, h3, h4, h5, h6, h7,
        m1, m2, m3, m4, m5, m6, m7]
  · norm_num [get_hpa_level, HPA_LEVELS, hpaRowMatches]

/-- C5 witness: the partition theorem applied at the concrete pressure
1000 hPa. -/
theorem hpa_partition_total_unique_witness :
    (HPA_LEVELS.filter (fun row => hpaRowMatches (1000 : ℚ) row)).length = 1 ∧
    get_hpa_level (1029.46 : ℚ) = 1 :=
  ⟨hpa_partition_total_unique.1 1000 (by norm_num) (by norm_num),
   hpa_partition_total_unique.2⟩


/-- C6: cross-validation adjusts the Sager confidence by the absolute
severity difference: diff 0 adds 10 capped at 99 ("agree"); diff 1 keeps
it ("close"); diff 2 subtracts 10 floored at 40 ("diverge"); diff ≥ 3
subtracts 20 floored at 30 ("conflict"); and for each confidence the
Sager engine produces (95 or 60) the result lies in [30, 99]. -/
theorem cross_validation_adjustment :
    ∀ (forecast_code zambretti_condition : String) (confidence : ℤ),
      confidence = 60 ∨ confidence = 95 →
      (|getSeverity (sagerCondition forecast_code) -
          getSeverity zambretti_condition| = 0 →
        cross_validate forecast_code confidence zambretti_condition =
          ⟨min (confidence + 10) 99, "agree"⟩) ∧
      (|getSeverity (sagerCondition forecast_code) -
          getSeverity zambretti_condition| = 1 →
        cross_validate forecast_code confidence zambretti_condition =
          ⟨confidence, "close"⟩) ∧
      (|getSeverity (sagerCondition forecast_code) -
          getSeverity zambretti_condition| = 2 →
        cross_validate forecast_code confidence zambretti_condition =
          ⟨max (confidence - 10) 40, "diverge"⟩) ∧
      (3 ≤ |getSeverity (sagerCondition forecast_code) -
          getSeverity zambretti_condition| →
        cross_validate forecast_code confidence zambretti_condition =
          ⟨max (confidence - 20) 30, "conflict"⟩) ∧
      30 ≤ (cross_validate forecast_code confidence zambretti_condition).confidence ∧
      (cross_validate forecast_code confidence zambretti_condition).confidence ≤ 99 := by
  intro fc zc conf hconf
  refine ⟨?_, ?_, ?_, ?_, ?_, ?_⟩
  · intro h; simp [cross_validate, h]
  · intro h; simp [cross_validate, h]
  · intro h; simp [cross_validate, h]
  · intro h
    have h0 : |getSeverity (sagerCondition fc) - getSeverity zc| ≠ 0 := by omega
    have h1 : |getSeverity (sagerCondition fc) - getSeverity zc| ≠ 1 := by omega
    have h2 : |getSeverity (sagerCondition fc) - getSeverity zc| ≠ 2 := by omega
    simp [cross_validate, h0, h1, h2]
  · rcases hconf with rfl | rfl <;>
      · simp only [cross_validate]
        split_ifs <;> simp
  · rcases hconf with rfl | rfl <;>
      · simp only [cross_validate]
        split_ifs <;> simp

/-- C6 witness: the adjustment theorem at forecast code "a" (sunny),
Zambretti condition "sunny" (severity difference 0) and confidence 95. -/
theorem cross_validation_adjustment_witness :
    cross_validate "a" 95 "sunny" = ⟨99, "agree"⟩ ∧
    30 ≤ (cross_validate "a" 95 "sunny").confidence ∧
    (cross_validate "a" 95 "sunny").confidence ≤ 99 := by
  have h := cross_validation_adjustment "a" "sunny" 95 (Or.inr rfl)
  refine ⟨?_, h.2.2.2.2.1, h.2.2.2.2.2⟩
  have h0 := h.1 (by decide)
  rw [h0]
  decide


/-- C7: whenever the Open-Meteo fallback value is a percentage, the
lux-to-cloud-cover conversion returns a value in [0, 100] for every
measured lux and every solar elevation; a measured value of 0 is floored
to ε = 0.001 before the division (same result as measuring 0.001); and a
non-positive modelled clear-sky value short-circuits to the 50% neutral
default. -/
theorem lux_to_cloud_cover_bounds :
    ∀ (o : FloatOracle) (omCloud : Option ℚ) (sunState : Option ℚ) (lux : ℚ),
      (∀ c, omCloud = some c → 0 ≤ c ∧ c ≤ 100) →
      (0 ≤ lux_to_cloud_cover o omCloud sunState lux ∧
        lux_to_cloud_cover o omCloud sunState lux ≤ 100) ∧
      lux_to_cloud_cover o omCloud sunState 0 =
        lux_to_cloud_cover o omCloud sunState 0.001 ∧
      (∀ e, sunState = some e → 1 < e → clear_sky_lux o e ≤ 0 →
        lux_to_cloud_cover o omCloud sunState lux = 50) := by
  intro o omCloud sunState lux hom
  have clamp_bounds : ∀ x : ℚ, 0 ≤ max 0 (min 100 x) ∧ max 0 (min 100 x) ≤ 100 := by
    intro x
    constructor
    · exact le_max_left 0 _
    · exact max_le (by norm_num) (min_le_left 100 x)
  refine ⟨?_, ?_, ?_⟩
  · match sunState with
    | none => exact ⟨by norm_num [lux_to_cloud_cover], by norm_num [lux_to_cloud_cover]⟩
    | some e =>
      simp only [lux_to_cloud_cover]
      split_ifs with h1 h2
      · match homc : omCloud with
        | some c => exact hom c rfl
        | none => norm_num
      · norm_num
      · exact clamp_bounds _
  · match sunState with
    | none => rfl
    | some e =>
      simp only [lux_to_cloud_cover]
      have : max (0 : ℚ) 0.001 = max (0.001 : ℚ) 0.001 := by norm_num
      rw [this]
  · intro e he h1 hcs
    subst he
    simp only [lux_to_cloud_cover]
    rw [if_neg (not_le.mpr h1), if_pos hcs]

/-- C7 witness: the bounds theorem at a concrete oracle (sin ↦ 1,
sqrt ↦ 0, pow ↦ 0, log ↦ 0), no Open-Meteo data, elevation 45°, lux 1000. -/
theorem lux_to_cloud_cover_bounds_witness :
    0 ≤ lux_to_cloud_cover ⟨fun _ => 1, fun _ => 0, fun _ => 0, fun _ => 0⟩
        none (some 45) 1000 ∧
    lux_to_cloud_cover ⟨fun _ => 1, fun _ => 0, fun _ => 0, fun _ => 0⟩
        none (some 45) 1000 ≤ 100 :=
  (lux_to_cloud_cover_bounds ⟨fun _ => 1, fun _ => 0, fun _ => 0, fun _ => 0⟩
    none (some 45) 1000 (fun c h => by simp at h)).1


/-- C8: the hourly cloud-cover slot value equals (up to the final
1-decimal rounding) the claim's 3-segment piecewise-linear transition
clamped to [0, 100], for every hour index and every pair of targets. -/
theorem sager_hourly_cloud_piecewise :
    ∀ (round1 : ℚ → ℚ) (current p1 p2 : ℚ) (i : ℕ),
      sager_hourly_cloud round1 current p1 p2 i =
        round1 (specCloudTransition current p1 p2 i) := by
  intro r current p1 p2 i
  simp only [sager_hourly_cloud, specCloudTransition]
  congr 2
  split_ifs <;>
    first
      | rfl
      | omega
      | (have h12 : i = 12 := by omega
         subst h12
         push_cast
         norm_num)
      | (have h24 : i = 24 := by omega
         subst h24
         push_cast
         norm_num)
      | (have h36 : i = 36 := by omega
         subst h36
         push_cast
         norm_num)

/-- C9: starting from a calibration factor in [0.4, 1.4], any sequence of
exponential-moving-average updates (each applied only when the observed
factor is itself within [0.4, 1.4]) keeps the factor within [0.4, 1.4]. -/
theorem calibration_factor_bounded :
    ∀ (observations : List ℚ) (init : ℚ),
      0.4 ≤ init → init ≤ 1.4 →
      0.4 ≤ run_calibration init observations ∧
        run_calibration init observations ≤ 1.4 := by
  intro observations
  induction observations with
  | nil => intro init h1 h2; exact ⟨h1, h2⟩
  | cons o rest ih =>
    intro init h1 h2
    have step : 0.4 ≤ update_calibration init o ∧
        update_calibration init o ≤ 1.4 := by
      unfold update_calibration
      split_ifs with h
      · constructor <;> linarith [h.1, h.2]
      · exact ⟨h1, h2⟩
    simpa [run_calibration] using ih (update_calibration init o) step.1 step.2

/-- C9 witness: the invariant applied to the factor 1 and a concrete
observation sequence containing boundary and out-of-range samples. -/
theorem calibration_factor_bounded_witness :
    0.4 ≤ run_calibration 1 [0.4, 2, 1.4] ∧
      run_calibration 1 [0.4, 2, 1.4] ≤ 1.4 :=
  calibration_factor_bounded [0.4, 2, 1.4] 1 (by norm_num) (by norm_num)


/-- C10: with a cloud-cover entity configured, a missing, unavailable or
unparseable state yields 0.0% cloud cover (clear sky, cloud level 1 when
not raining), the external fallback never applies; the Open-Meteo
current-cloud-cover fallback applies only when no entity is configured. -/
theorem cloud_cover_entity_fallback :
    ∀ (st : Option EntityState) (luxConv : ℚ → ℚ) (omData : Option (Option ℚ)),
      ((st = none ∨ ∃ s, st = some s ∧
          ((s.state = "unavailable" ∨ s.state = "unknown" ∨ s.state = "none") ∨
            s.parsed = none)) →
        effective_cloud_cover true st luxConv omData = 0 ∧
        get_cloud_level 0 false = 1) ∧
      (effective_cloud_cover true st luxConv omData =
        get_cloud_cover true st luxConv) ∧
      (∀ c : ℚ, effective_cloud_cover false st luxConv (some (some c)) = c) := by
  intro st luxConv omData
  have base_true : ∀ st' luxConv' omData',
      effective_cloud_cover true st' luxConv' omData' =
        get_cloud_cover true st' luxConv' := by
    intro st' luxConv' omData'
    simp [effective_cloud_cover]
  refine ⟨?_, base_true st luxConv omData, ?_⟩
  · intro h
    refine ⟨?_, by norm_num [get_cloud_level]⟩
    rw [base_true]
    rcases h with rfl | ⟨s, rfl, hbad⟩
    · simp [get_cloud_cover]
    · rcases hbad with hstate | hparse
      · simp [get_cloud_cover, hstate]
      · simp only [get_cloud_cover, hparse]
        split_ifs <;> simp [hparse]
  · intro c
    simp [effective_cloud_cover]

/-- C10 witness: the theorem applied to a configured entity whose state
reads "unavailable" while Open-Meteo reports 80% cloud cover. -/
theorem cloud_cover_entity_fallback_witness :
    effective_cloud_cover true (some ⟨"unavailable", none, "%"⟩)
        (fun v => v) (some (some 80)) = 0 ∧
    get_cloud_level 0 false = 1 :=
  (cloud_cover_entity_fallback (some ⟨"unavailable", none, "%"⟩)
      (fun v => v) (some (some 80))).1
    (Or.inr ⟨⟨"unavailable", none, "%"⟩, rfl, Or.inl (Or.inl rfl)⟩)

end SagerWeathercaster
